import Mathlib

/-!
Shallow embedding of the collab-canvas server (the socket.io server embedded in
src/src/client/utils.js, lines 136-523): the room store, the membership
protocol (create-room, validate-room, join-room, leave-room, disconnect) and
the canvas mutation protocol (object added / modified / removed, clear,
theme-change, cursor broadcast).

JS `Map` objects are modelled as association lists `List (String × α)`:
a JS Map never holds two entries with the same key, `Map.get` reads the entry
with the key, `Map.set` overwrites it in place (or appends a fresh entry) and
`Map.delete` removes it.  All maps in the server are built from the empty map
by set/delete, so the association lists never hold duplicate keys and the
first-match reading below coincides with JS Map semantics.
-/

/-- JS `Map.get`: the value stored at key `k`, if any. -/
def mapGet : List (String × α) → String → Option α
  | [], _ => none
  | p :: ps, k => if p.1 = k then some p.2 else mapGet ps k

/-- JS `Map.set`: overwrite the entry for `k` in place, or append a fresh one. -/
def mapSet : List (String × α) → String → α → List (String × α)
  | [], k, v => [(k, v)]
  | p :: ps, k, v => if p.1 = k then (k, v) :: ps else p :: mapSet ps k v

/-- JS `Map.delete`: remove the entry for `k` (drops every pair keyed `k`;
identical to JS Map on the duplicate-free maps the server builds). -/
def mapDelete : List (String × α) → String → List (String × α)
  | [], _ => []
  | p :: ps, k => if p.1 = k then mapDelete ps k else p :: mapDelete ps k

/-- JS `Map.has`. -/
def mapHas (m : List (String × α)) (k : String) : Bool :=
  (mapGet m k).isSome

/-- The `User` interface of the server.  `id` is always populated (from
`socket.id` unless the client payload overrides it); the remaining fields come
from the client-supplied partial user data. -/
structure User where
  id : String
  name : Option String := none
  color : Option String := none
  joinedAt : Option Nat := none
  userId : Option String := none
  deriving Repr, DecidableEq

/-- Client-supplied `Partial<User>` payload (`userData`). -/
structure UserData where
  id : Option String := none
  name : Option String := none
  color : Option String := none
  joinedAt : Option Nat := none
  userId : Option String := none
  deriving Repr, DecidableEq

/-- `{ id: socket.id, ...userData }`: the spread comes second, so a client
supplied `id` field overrides `socket.id` in the object (the users-map key is
still `socket.id`). -/
def mkUser (sockId : String) (d : UserData) : User :=
  { id := d.id.getD sockId, name := d.name, color := d.color,
    joinedAt := d.joinedAt, userId := d.userId }

/-- The `CanvasObject` interface: an `id` plus an opaque serialized payload
(the server never interprets the rest of the object; it is forwarded
verbatim). -/
structure CanvasObject where
  id : String
  data : String := ""
  deriving Repr, DecidableEq

/-- The `CanvasState` interface. -/
structure CanvasState where
  objects : List CanvasObject
  theme : String
  canvasColor : String
  deriving Repr, DecidableEq

/-- The `Room` interface. -/
structure Room where
  users : List (String × User)
  canvasState : CanvasState
  password : String
  createdAt : Nat
  expiresAt : Nat
  rejoinCounts : List (String × Nat)
  creatorId : String
  deriving Repr, DecidableEq

/-- The in-memory `rooms` map. -/
abbrev RoomStore := List (String × Room)

/-- The per-connection closure variables `currentRoom` and `currentUser`. -/
structure Session where
  currentRoom : Option String
  currentUser : Option User
  deriving Repr, DecidableEq

/-- Payloads the server emits. -/
inductive Msg where
  | roomCreated (roomId password : String) (user : User)
  | roomValidationFailed (message : String)
  | roomValidationSuccess
  | error (message : String)
  | roomJoined (roomId : String) (user : User) (canvasState : CanvasState)
      (users : List User) (rejoinCount : Option Nat)
  | userJoined (user : User)
  | userLeft (userId : String)
  | objectAdded (object : CanvasObject)
  | objectModified (object : CanvasObject)
  | objectRemoved (objectId : String)
  | canvasClear
  | themeChange (theme : String) (color : Option String)
  | cursorPosition (userId : String) (x y : Int)
  deriving Repr, DecidableEq

/-- An emission: `socket.emit` goes to the sender only; `socket.to(room).emit`
goes to every connection subscribed to the room group except the sender. -/
inductive Emit where
  | toSender (conn : String) (msg : Msg)
  | toRoom (roomId : String) (sender : String) (msg : Msg)
  deriving Repr, DecidableEq

/-- Handler for `create-room`.  The freshly generated `roomId` and `password`
are passed in as parameters (the generators are modelled separately, below). -/
def onCreateRoom (rooms : RoomStore) (sockId : String) (userData : UserData)
    (roomId password : String) (now : Nat) : RoomStore × Session × List Emit :=
  let user := mkUser sockId userData
  let room : Room :=
    { users := [(sockId, user)],
      canvasState := { objects := [], theme := "dark", canvasColor := "#1a1a1a" },
      password := password,
      createdAt := now,
      expiresAt := now + 24 * 60 * 60 * 1000,
      rejoinCounts := [],
      creatorId := sockId }
  (mapSet rooms roomId room,
   { currentRoom := some roomId, currentUser := some user },
   [Emit.toSender sockId (Msg.roomCreated roomId password user)])

/-- Handler for `join-room`.  `now` is `Date.now()` at handling time. -/
def onJoinRoom (rooms : RoomStore) (sess : Session) (sockId : String)
    (roomId password : String) (userData : UserData) (now : Nat) :
    RoomStore × Session × List Emit :=
  match mapGet rooms roomId with
  | none => (rooms, sess, [Emit.toSender sockId (Msg.error "Room not found or expired")])
  | some room =>
    if room.expiresAt < now then
      (mapDelete rooms roomId, sess,
       [Emit.toSender sockId (Msg.error "Room has expired (24 hour limit)")])
    else if room.password ≠ password then
      (rooms, sess, [Emit.toSender sockId (Msg.error "Incorrect password")])
    else
      let userIdToTrack := userData.userId.getD sockId
      let rejoinCount := (mapGet room.rejoinCounts userIdToTrack).getD 0
      if 3 ≤ rejoinCount then
        (rooms, sess,
         [Emit.toSender sockId (Msg.error "Maximum rejoin limit reached (3 attempts)")])
      else
        let user := mkUser sockId userData
        let users' := mapSet room.users sockId user
        let rejoinCounts' :=
          if 0 < rejoinCount ∨ mapHas room.rejoinCounts userIdToTrack then
            mapSet room.rejoinCounts userIdToTrack (rejoinCount + 1)
          else
            mapSet room.rejoinCounts userIdToTrack 0
        let room' := { room with users := users', rejoinCounts := rejoinCounts' }
        (mapSet rooms roomId room',
         { currentRoom := some roomId, currentUser := some user },
         [Emit.toSender sockId
            (Msg.roomJoined roomId user room.canvasState (users'.map Prod.snd)
              (mapGet rejoinCounts' userIdToTrack)),
          Emit.toRoom roomId sockId (Msg.userJoined user)])

/-- Handler for `leave-room`.  If the removal leaves the users map empty the
room is deleted from the store; the closure variables are reset either way. -/
def onLeaveRoom (rooms : RoomStore) (sess : Session) (sockId : String) :
    RoomStore × Session × List Emit :=
  match sess.currentRoom with
  | none => (rooms, sess, [])
  | some roomId =>
    match mapGet rooms roomId with
    | none => (rooms, { currentRoom := none, currentUser := none }, [])
    | some room =>
      let users' := mapDelete room.users sockId
      let rooms' :=
        if users'.length = 0 then mapDelete rooms roomId
        else mapSet rooms roomId { room with users := users' }
      (rooms', { currentRoom := none, currentUser := none },
       [Emit.toRoom roomId sockId (Msg.userLeft sockId)])

/-- Handler for the transport-level `disconnect`.  The user is removed and
`user-left` is broadcast, but the room is never deleted, even when it becomes
empty (it persists for rejoining until expiry). -/
def onDisconnect (rooms : RoomStore) (sess : Session) (sockId : String) :
    RoomStore × List Emit :=
  match sess.currentRoom with
  | none => (rooms, [])
  | some roomId =>
    match mapGet rooms roomId with
    | none => (rooms, [])
    | some room =>
      (mapSet rooms roomId { room with users := mapDelete room.users sockId },
       [Emit.toRoom roomId sockId (Msg.userLeft sockId)])

/-- Handler for `canvas:object:added`: append and broadcast to others. -/
def onObjectAdded (rooms : RoomStore) (sess : Session) (sockId : String)
    (object : CanvasObject) : RoomStore × List Emit :=
  match sess.currentRoom with
  | none => (rooms, [])
  | some roomId =>
    let rooms' :=
      match mapGet rooms roomId with
      | none => rooms
      | some room =>
        mapSet rooms roomId
          { room with canvasState :=
              { room.canvasState with objects := room.canvasState.objects ++ [object] } }
    (rooms', [Emit.toRoom roomId sockId (Msg.objectAdded object)])

/-- `findIndex(obj => obj.id === data.object.id)` followed by an index
assignment: replace the first object with the matching id in place; when no
index matches, the list is left as it is. -/
def replaceById : List CanvasObject → CanvasObject → List CanvasObject
  | [], _ => []
  | o :: os, newObj => if o.id = newObj.id then newObj :: os else o :: replaceById os newObj

/-- Handler for `canvas:object:modified`: replace in place when the id is
found; broadcast to others regardless. -/
def onObjectModified (rooms : RoomStore) (sess : Session) (sockId : String)
    (object : CanvasObject) : RoomStore × List Emit :=
  match sess.currentRoom with
  | none => (rooms, [])
  | some roomId =>
    let rooms' :=
      match mapGet rooms roomId with
      | none => rooms
      | some room =>
        mapSet rooms roomId
          { room with canvasState :=
              { room.canvasState with
                  objects := replaceById room.canvasState.objects object } }
    (rooms', [Emit.toRoom roomId sockId (Msg.objectModified object)])

/-- Handler for `canvas:object:removed`: filter out the matching id and
broadcast to others. -/
def onObjectRemoved (rooms : RoomStore) (sess : Session) (sockId : String)
    (objectId : String) : RoomStore × List Emit :=
  match sess.currentRoom with
  | none => (rooms, [])
  | some roomId =>
    let rooms' :=
      match mapGet rooms roomId with
      | none => rooms
      | some room =>
        mapSet rooms roomId
          { room with canvasState :=
              { room.canvasState with
                  objects := room.canvasState.objects.filter (fun o => o.id ≠ objectId) } }
    (rooms', [Emit.toRoom roomId sockId (Msg.objectRemoved objectId)])

/-- Handler for `canvas:clear`: reset the object list and broadcast. -/
def onClear (rooms : RoomStore) (sess : Session) (sockId : String) :
    RoomStore × List Emit :=
  match sess.currentRoom with
  | none => (rooms, [])
  | some roomId =>
    let rooms' :=
      match mapGet rooms roomId with
      | none => rooms
      | some room =>
        mapSet rooms roomId
          { room with canvasState := { room.canvasState with objects := [] } }
    (rooms', [Emit.toRoom roomId sockId Msg.canvasClear])

/-- Handler for `theme-change`.  `if (data.color)` is a JS truthiness test, so
an absent color and the empty string both leave `canvasColor` untouched. -/
def onThemeChange (rooms : RoomStore) (sess : Session) (sockId : String)
    (theme : String) (color : Option String) : RoomStore × List Emit :=
  match sess.currentRoom with
  | none => (rooms, [])
  | some roomId =>
    let rooms' :=
      match mapGet rooms roomId with
      | none => rooms
      | some room =>
        let newColor :=
          match color with
          | some c => if c = "" then room.canvasState.canvasColor else c
          | none => room.canvasState.canvasColor
        mapSet rooms roomId
          { room with canvasState :=
              { room.canvasState with theme := theme, canvasColor := newColor } }
    (rooms', [Emit.toRoom roomId sockId (Msg.themeChange theme color)])

/-- Handler for `cursor:position`: never persisted, broadcast to others with
the sender id attached. -/
def onCursorPosition (rooms : RoomStore) (sess : Session) (sockId : String)
    (x y : Int) : RoomStore × List Emit :=
  match sess.currentRoom with
  | none => (rooms, [])
  | some roomId => (rooms, [Emit.toRoom roomId sockId (Msg.cursorPosition sockId x y)])

/-!
Room id and password generation.

`generateRoomId` is `Math.random().toString(36).substring(2, 8).toUpperCase()`.
`Number.prototype.toString(36)` on a value in `(0, 1)` prints `"0."` followed
by the fractional base-36 digits of the value (the expansion of a double in
base 36 terminates, and JS prints it without trailing zeros); on `0` it prints
`"0"`.  We therefore model the random draw by its list of fractional base-36
digits `ds`, so `substring(2, 8)` keeps the first six of them — fewer when the
expansion is shorter, e.g. `(0.5).toString(36) = "0.i"`.

`generateRoomPassword` draws six uniform indices into a 36-character alphabet;
we model the six draws as a list of indices.
-/

/-- The lowercase base-36 digit alphabet used by `Number.prototype.toString(36)`. -/
def base36Digits : List Char :=
  "0123456789abcdefghijklmnopqrstuvwxyz".toList

/-- One base-36 digit character. -/
def base36Digit (d : Fin 36) : Char :=
  base36Digits.get (Fin.cast (rfl : (36 : Nat) = base36Digits.length) d)

/-- `Math.random().toString(36)` for a nonzero draw whose fractional base-36
digit expansion is `ds`. -/
def jsRandomToString36 (ds : List (Fin 36)) : String :=
  String.mk ('0' :: '.' :: ds.map base36Digit)

/-- `generateRoomId`: `Math.random().toString(36).substring(2, 8).toUpperCase()`,
parameterized by the fractional base-36 digits of the random draw. -/
def generateRoomId (ds : List (Fin 36)) : String :=
  String.mk ((((jsRandomToString36 ds).toList.drop 2).take 6).map Char.toUpper)

/-- The password alphabet string ABCDEFGHIJKLMNOPQRSTUVWXYZ0123456789. -/
def passwordAlphabet : List Char :=
  "ABCDEFGHIJKLMNOPQRSTUVWXYZ0123456789".toList

/-- `generateRoomPassword`: the loop `password += chars.charAt(...)` run once
per random draw in `rs` (the server runs it with six draws). -/
def generateRoomPassword (rs : List (Fin 36)) : String :=
  String.mk (rs.map (fun r =>
    passwordAlphabet.get (Fin.cast (rfl : (36 : Nat) = passwordAlphabet.length) r)))

/-!
Whole-system state machine over the four membership operations, for reasoning
about every reachable state.  `sessions` holds the per-connection closure
variables (`currentRoom`, `currentUser`); a transport `disconnect` destroys
the connection together with its closure, which we model by resetting its
session to the unbound one.
-/

/-- Global server state: the room store plus the closure variables of every connection. -/
structure SState where
  rooms : RoomStore
  sessions : String → Session

/-- State at server start: no rooms, every connection unbound. -/
def initState : SState :=
  { rooms := [], sessions := fun _ => { currentRoom := none, currentUser := none } }

/-- A membership-protocol operation, tagged with the issuing connection. -/
inductive Op where
  | create (conn : String) (userData : UserData) (roomId password : String) (now : Nat)
  | join (conn : String) (roomId password : String) (userData : UserData) (now : Nat)
  | leave (conn : String)
  | disconnect (conn : String)

/-- Update the session of one connection. -/
def updSess (f : String → Session) (conn : String) (sess : Session) : String → Session :=
  fun c => if c = conn then sess else f c

/-- One step of the membership protocol. -/
def step (s : SState) : Op → SState
  | .create conn userData roomId password now =>
    let r := onCreateRoom s.rooms conn userData roomId password now
    { rooms := r.1, sessions := updSess s.sessions conn r.2.1 }
  | .join conn roomId password userData now =>
    let r := onJoinRoom s.rooms (s.sessions conn) conn roomId password userData now
    { rooms := r.1, sessions := updSess s.sessions conn r.2.1 }
  | .leave conn =>
    let r := onLeaveRoom s.rooms (s.sessions conn) conn
    { rooms := r.1, sessions := updSess s.sessions conn r.2.1 }
  | .disconnect conn =>
    let r := onDisconnect s.rooms (s.sessions conn) conn
    { rooms := r.1,
      sessions := updSess s.sessions conn { currentRoom := none, currentUser := none } }

/-- Does the users map of room `roomId` hold connection `conn`? -/
def connInRoom (s : SState) (conn roomId : String) : Bool :=
  match mapGet s.rooms roomId with
  | none => false
  | some room => mapHas room.users conn

/-- The empty `Partial<User>` payload. -/
def emptyUserData : UserData := {}

/-- Reachability of global states under the discipline the spec states for the
membership protocol (`Unbound -> Bound(roomId) -> Unbound`): `create-room` and
`join-room` are issued only by connections that are currently Unbound;
`leave-room` and `disconnect` are unrestricted. -/
inductive GuardedReachable : SState → Prop where
  | init : GuardedReachable initState
  | create {s : SState} (conn : String) (userData : UserData)
      (roomId password : String) (now : Nat) :
      GuardedReachable s → (s.sessions conn).currentRoom = none →
      GuardedReachable (step s (Op.create conn userData roomId password now))
  | join {s : SState} (conn roomId password : String) (userData : UserData) (now : Nat) :
      GuardedReachable s → (s.sessions conn).currentRoom = none →
      GuardedReachable (step s (Op.join conn roomId password userData now))
  | leave {s : SState} (conn : String) :
      GuardedReachable s → GuardedReachable (step s (Op.leave conn))
  | disconnect {s : SState} (conn : String) :
      GuardedReachable s → GuardedReachable (step s (Op.disconnect conn))

/-- Every connection stored in the users map of some room is currently bound
to exactly that room. -/
def BindingInv (s : SState) : Prop :=
  ∀ conn roomId room, mapGet s.rooms roomId = some room →
    mapHas room.users conn = true → (s.sessions conn).currentRoom = some roomId

/-- A concrete room used to instantiate the theorems below: one member `c0`,
one canvas object `a1`, and a rejoin-count entry for the stable key `u0`
already at the cap. -/
def sampleRoom : Room :=
  { users := [("c0", { id := "c0" })],
    canvasState := { objects := [{ id := "a1" }], theme := "dark", canvasColor := "#1a1a1a" },
    password := "PW0000",
    createdAt := 0,
    expiresAt := 86400000,
    rejoinCounts := [("u0", 3)],
    creatorId := "c0" }

/-- A store holding only `sampleRoom` under the id `R0`. -/
def sampleStore : RoomStore := [("R0", sampleRoom)]

/-- The session of a connection bound to `R0` as member `c0`. -/
def sampleSession : Session :=
  { currentRoom := some "R0", currentUser := some { id := "c0" } }

/-! Association-list lemmas for the JS `Map` model. -/

theorem mapGet_set (m : List (String × α)) (k : String) (v : α) (k' : String) :
    mapGet (mapSet m k v) k' = if k' = k then some v else mapGet m k' := by
  induction m with
  | nil =>
    simp only [mapSet, mapGet]
    by_cases h : k' = k
    · rw [if_pos h.symm, if_pos h]
    · rw [if_neg (fun hc => h hc.symm), if_neg h]
  | cons p ps ih =>
    by_cases hp : p.1 = k
    · simp only [mapSet, if_pos hp, mapGet]
      by_cases h : k' = k
      · rw [if_pos h.symm, if_pos h]
      · rw [if_neg (fun hc => h hc.symm), if_neg h, if_neg (fun hc : p.1 = k' => h (hc ▸ hp))]
    · simp only [mapSet, if_neg hp, mapGet]
      by_cases hq : p.1 = k'
      · have h : ¬ k' = k := fun hc => hp (by rw [hq, hc])
        rw [if_pos hq, if_neg h, if_pos hq]
      · rw [if_neg hq, ih]
        by_cases h : k' = k <;> simp [h, hq]

theorem mapGet_set_self (m : List (String × α)) (k : String) (v : α) :
    mapGet (mapSet m k v) k = some v := by
  simp [mapGet_set]

theorem mapGet_set_ne (m : List (String × α)) (k : String) (v : α) (k' : String)
    (h : k' ≠ k) : mapGet (mapSet m k v) k' = mapGet m k' := by
  simp [mapGet_set, h]

theorem mapGet_delete (m : List (String × α)) (k k' : String) :
    mapGet (mapDelete m k) k' = if k' = k then none else mapGet m k' := by
  induction m with
  | nil =>
    simp only [mapDelete, mapGet]
    by_cases h : k' = k <;> simp [h]
  | cons p ps ih =>
    by_cases hp : p.1 = k
    · simp only [mapDelete, if_pos hp, ih, mapGet]
      by_cases h : k' = k
      · simp [h]
      · rw [if_neg h, if_neg h, if_neg (fun hc : p.1 = k' => h (hc ▸ hp))]
    · simp only [mapDelete, if_neg hp, mapGet]
      by_cases hq : p.1 = k'
      · have h : ¬ k' = k := fun hc => hp (by rw [hq, hc])
        rw [if_pos hq, if_neg h, if_pos hq]
      · rw [if_neg hq, ih]
        by_cases h : k' = k <;> simp [h, hq]

theorem mapGet_delete_self (m : List (String × α)) (k : String) :
    mapGet (mapDelete m k) k = none := by
  simp [mapGet_delete]

theorem mapGet_delete_ne (m : List (String × α)) (k k' : String) (h : k' ≠ k) :
    mapGet (mapDelete m k) k' = mapGet m k' := by
  simp [mapGet_delete, h]

/-- Overwriting the entry that is already stored leaves the map unchanged. -/
theorem mapSet_get_self (m : List (String × α)) (k : String) (v : α)
    (h : mapGet m k = some v) : mapSet m k v = m := by
  induction m with
  | nil => simp [mapGet] at h
  | cons p ps ih =>
    by_cases hp : p.1 = k
    · simp only [mapGet, if_pos hp] at h
      injection h with h2
      simp only [mapSet, if_pos hp]
      rw [← h2, ← hp]
    · simp only [mapGet, if_neg hp] at h
      simp only [mapSet, if_neg hp, ih h]

/-- Replacing by an id that occurs nowhere in the list is the identity. -/
theorem replaceById_not_mem (objs : List CanvasObject) (obj : CanvasObject)
    (h : ∀ o ∈ objs, o.id ≠ obj.id) : replaceById objs obj = objs := by
  induction objs with
  | nil => simp [replaceById]
  | cons o os ih =>
    have ho : o.id ≠ obj.id := h o (List.mem_cons_self o os)
    simp only [replaceById, if_neg ho]
    rw [ih (fun x hx => h x (List.mem_cons_of_mem o hx))]

/-! Branch characterizations of `onJoinRoom`. -/

theorem onJoinRoom_not_found (rooms : RoomStore) (sess : Session)
    (sockId roomId password : String) (userData : UserData) (now : Nat)
    (hroom : mapGet rooms roomId = none) :
    onJoinRoom rooms sess sockId roomId password userData now =
      (rooms, sess, [Emit.toSender sockId (Msg.error "Room not found or expired")]) := by
  unfold onJoinRoom
  rw [hroom]

theorem onJoinRoom_expired (rooms : RoomStore) (sess : Session)
    (sockId roomId password : String) (userData : UserData) (now : Nat) (room : Room)
    (hroom : mapGet rooms roomId = some room) (hexp : room.expiresAt < now) :
    onJoinRoom rooms sess sockId roomId password userData now =
      (mapDelete rooms roomId, sess,
       [Emit.toSender sockId (Msg.error "Room has expired (24 hour limit)")]) := by
  unfold onJoinRoom
  rw [hroom]
  simp [hexp]

theorem onJoinRoom_wrong_password (rooms : RoomStore) (sess : Session)
    (sockId roomId password : String) (userData : UserData) (now : Nat) (room : Room)
    (hroom : mapGet rooms roomId = some room) (hexp : ¬ room.expiresAt < now)
    (hpw : room.password ≠ password) :
    onJoinRoom rooms sess sockId roomId password userData now =
      (rooms, sess, [Emit.toSender sockId (Msg.error "Incorrect password")]) := by
  unfold onJoinRoom
  rw [hroom]
  simp [hexp, hpw]

theorem onJoinRoom_limited (rooms : RoomStore) (sess : Session)
    (sockId roomId password : String) (userData : UserData) (now : Nat) (room : Room)
    (hroom : mapGet rooms roomId = some room) (hexp : ¬ room.expiresAt < now)
    (hpw : room.password = password)
    (hcnt : 3 ≤ (mapGet room.rejoinCounts (userData.userId.getD sockId)).getD 0) :
    onJoinRoom rooms sess sockId roomId password userData now =
      (rooms, sess,
       [Emit.toSender sockId (Msg.error "Maximum rejoin limit reached (3 attempts)")]) := by
  unfold onJoinRoom
  rw [hroom]
  simp [hexp, hpw, hcnt]

theorem onJoinRoom_success (rooms : RoomStore) (sess : Session)
    (sockId roomId password : String) (userData : UserData) (now : Nat) (room : Room)
    (hroom : mapGet rooms roomId = some room) (hexp : ¬ room.expiresAt < now)
    (hpw : room.password = password)
    (hcnt : (mapGet room.rejoinCounts (userData.userId.getD sockId)).getD 0 < 3) :
    ∃ rc : List (String × Nat),
      onJoinRoom rooms sess sockId roomId password userData now =
        (mapSet rooms roomId
           { room with users := mapSet room.users sockId (mkUser sockId userData),
                       rejoinCounts := rc },
         { currentRoom := some roomId, currentUser := some (mkUser sockId userData) },
         [Emit.toSender sockId
            (Msg.roomJoined roomId (mkUser sockId userData) room.canvasState
              ((mapSet room.users sockId (mkUser sockId userData)).map Prod.snd)
              (mapGet rc (userData.userId.getD sockId))),
          Emit.toRoom roomId sockId (Msg.userJoined (mkUser sockId userData))]) := by
  refine ⟨if 0 < (mapGet room.rejoinCounts (userData.userId.getD sockId)).getD 0 ∨
      mapHas room.rejoinCounts (userData.userId.getD sockId) then
        mapSet room.rejoinCounts (userData.userId.getD sockId)
          ((mapGet room.rejoinCounts (userData.userId.getD sockId)).getD 0 + 1)
      else mapSet room.rejoinCounts (userData.userId.getD sockId) 0, ?_⟩
  unfold onJoinRoom
  rw [hroom]
  simp [hexp, hpw, Nat.not_le_of_lt hcnt]

/-! Characterizations of the canvas handlers on a bound connection whose room
is present in the store. -/

theorem onObjectAdded_eq (rooms : RoomStore) (sess : Session) (sockId : String)
    (object : CanvasObject) (roomId : String) (room : Room)
    (hbound : sess.currentRoom = some roomId) (hroom : mapGet rooms roomId = some room) :
    onObjectAdded rooms sess sockId object =
      (mapSet rooms roomId
         { room with canvasState :=
             { room.canvasState with objects := room.canvasState.objects ++ [object] } },
       [Emit.toRoom roomId sockId (Msg.objectAdded object)]) := by
  unfold onObjectAdded
  rw [hbound]
  simp [hroom]

theorem onObjectAdded_noroom (rooms : RoomStore) (sess : Session) (sockId : String)
    (object : CanvasObject) (roomId : String)
    (hbound : sess.currentRoom = some roomId) (hroom : mapGet rooms roomId = none) :
    onObjectAdded rooms sess sockId object =
      (rooms, [Emit.toRoom roomId sockId (Msg.objectAdded object)]) := by
  unfold onObjectAdded
  rw [hbound]
  simp [hroom]

theorem onObjectModified_eq (rooms : RoomStore) (sess : Session) (sockId : String)
    (object : CanvasObject) (roomId : String) (room : Room)
    (hbound : sess.currentRoom = some roomId) (hroom : mapGet rooms roomId = some room) :
    onObjectModified rooms sess sockId object =
      (mapSet rooms roomId
         { room with canvasState :=
             { room.canvasState with
                 objects := replaceById room.canvasState.objects object } },
       [Emit.toRoom roomId sockId (Msg.objectModified object)]) := by
  unfold onObjectModified
  rw [hbound]
  simp [hroom]

theorem onObjectRemoved_eq (rooms : RoomStore) (sess : Session) (sockId : String)
    (objectId : String) (roomId : String) (room : Room)
    (hbound : sess.currentRoom = some roomId) (hroom : mapGet rooms roomId = some room) :
    onObjectRemoved rooms sess sockId objectId =
      (mapSet rooms roomId
         { room with canvasState :=
             { room.canvasState with
                 objects := room.canvasState.objects.filter (fun o => o.id ≠ objectId) } },
       [Emit.toRoom roomId sockId (Msg.objectRemoved objectId)]) := by
  unfold onObjectRemoved
  rw [hbound]
  simp [hroom]

theorem onObjectRemoved_noroom (rooms : RoomStore) (sess : Session) (sockId : String)
    (objectId : String) (roomId : String)
    (hbound : sess.currentRoom = some roomId) (hroom : mapGet rooms roomId = none) :
    onObjectRemoved rooms sess sockId objectId =
      (rooms, [Emit.toRoom roomId sockId (Msg.objectRemoved objectId)]) := by
  unfold onObjectRemoved
  rw [hbound]
  simp [hroom]

theorem onClear_eq (rooms : RoomStore) (sess : Session) (sockId : String)
    (roomId : String) (room : Room)
    (hbound : sess.currentRoom = some roomId) (hroom : mapGet rooms roomId = some room) :
    onClear rooms sess sockId =
      (mapSet rooms roomId
         { room with canvasState := { room.canvasState with objects := [] } },
       [Emit.toRoom roomId sockId Msg.canvasClear]) := by
  unfold onClear
  rw [hbound]
  simp [hroom]

theorem onDisconnect_eq (rooms : RoomStore) (sess : Session) (sockId : String)
    (roomId : String) (room : Room)
    (hbound : sess.currentRoom = some roomId) (hroom : mapGet rooms roomId = some room) :
    onDisconnect rooms sess sockId =
      (mapSet rooms roomId { room with users := mapDelete room.users sockId },
       [Emit.toRoom roomId sockId (Msg.userLeft sockId)]) := by
  unfold onDisconnect
  rw [hbound]
  simp [hroom]

theorem onLeaveRoom_empties (rooms : RoomStore) (sess : Session) (sockId : String)
    (roomId : String) (room : Room)
    (hbound : sess.currentRoom = some roomId) (hroom : mapGet rooms roomId = some room)
    (hempty : (mapDelete room.users sockId).length = 0) :
    onLeaveRoom rooms sess sockId =
      (mapDelete rooms roomId, { currentRoom := none, currentUser := none },
       [Emit.toRoom roomId sockId (Msg.userLeft sockId)]) := by
  unfold onLeaveRoom
  rw [hbound]
  simp [hroom, hempty]

/-! Claim theorems. -/

/-- C1 counterexample: a connection creates a room and then issues leave-room;
the removal leaves the users map empty and the room is GONE from the store,
refuting the claim that the room still exists afterwards. -/
theorem C1_counterexample_leave_deletes_emptied_room :
    mapGet (step (step initState (Op.create "c1" emptyUserData "R1" "P1" 0))
        (Op.leave "c1")).rooms "R1" = none := by
  decide

/-- C1 amended: when a bound connection issues leave-room and the removal
leaves the users map empty, the room is deleted from the store immediately
(user-left is still broadcast and the connection is unbound); it is the
disconnect path, not leave-room, that lets an empty room persist until
expiry. -/
theorem C1_amended_leave_room_deletes_when_empty (rooms : RoomStore) (sess : Session)
    (sockId roomId : String) (room : Room)
    (hbound : sess.currentRoom = some roomId)
    (hroom : mapGet rooms roomId = some room)
    (hempty : (mapDelete room.users sockId).length = 0) :
    mapGet (onLeaveRoom rooms sess sockId).1 roomId = none ∧
    (onLeaveRoom rooms sess sockId).2.1 = { currentRoom := none, currentUser := none } ∧
    (onLeaveRoom rooms sess sockId).2.2 = [Emit.toRoom roomId sockId (Msg.userLeft sockId)] := by
  have h := onLeaveRoom_empties rooms sess sockId roomId room hbound hroom hempty
  refine ⟨?_, ?_, ?_⟩ <;> rw [h]
  exact mapGet_delete_self rooms roomId

/-- Witness for C1 amended at the sample room whose only member is `c0`. -/
theorem C1_amended_witness :
    mapGet (onLeaveRoom sampleStore sampleSession "c0").1 "R0" = none ∧
    (onLeaveRoom sampleStore sampleSession "c0").2.1 =
      { currentRoom := none, currentUser := none } ∧
    (onLeaveRoom sampleStore sampleSession "c0").2.2 =
      [Emit.toRoom "R0" "c0" (Msg.userLeft "c0")] :=
  C1_amended_leave_room_deletes_when_empty sampleStore sampleSession "c0" "R0" sampleRoom
    (by decide) (by decide) (by decide)

/-- C4: a join-room attempt whose stable userId key has a rejoinCounts entry
that has reached 3 fails with the rate-limit error, does not bind the
connection (the session is returned unchanged) and does not insert the user
into the users map (the store is returned unchanged). -/
theorem C4_rejoin_limit_blocks_fourth_attempt (rooms : RoomStore) (sess : Session)
    (sockId roomId password key : String) (userData : UserData) (now : Nat) (room : Room)
    (hroom : mapGet rooms roomId = some room)
    (hexp : ¬ room.expiresAt < now)
    (hpw : room.password = password)
    (hkey : userData.userId = some key)
    (hcnt : mapGet room.rejoinCounts key = some 3) :
    onJoinRoom rooms sess sockId roomId password userData now =
      (rooms, sess,
       [Emit.toSender sockId (Msg.error "Maximum rejoin limit reached (3 attempts)")]) := by
  have hk : userData.userId.getD sockId = key := by rw [hkey]; rfl
  apply onJoinRoom_limited rooms sess sockId roomId password userData now room hroom hexp hpw
  rw [hk, hcnt]
  exact Nat.le_refl 3

/-- Witness for C4 at the sample room, whose rejoinCounts entry for `u0` is 3. -/
theorem C4_witness :
    onJoinRoom sampleStore { currentRoom := none, currentUser := none } "c9" "R0" "PW0000"
        { userId := some "u0" } 0 =
      (sampleStore, { currentRoom := none, currentUser := none },
       [Emit.toSender "c9" (Msg.error "Maximum rejoin limit reached (3 attempts)")]) :=
  C4_rejoin_limit_blocks_fourth_attempt sampleStore
    { currentRoom := none, currentUser := none } "c9" "R0" "PW0000" "u0"
    { userId := some "u0" } 0 sampleRoom (by decide) (by decide) (by decide) rfl (by decide)

/-- C5: joining an existing, non-expired room with a password that does not
match fails with the incorrect-password error and changes nothing: the store
and the session are returned exactly as they were, so the room (its users,
rejoinCounts and canvasState) equals its value before the call. -/
theorem C5_wrong_password_is_pure_failure (rooms : RoomStore) (sess : Session)
    (sockId roomId password : String) (userData : UserData) (now : Nat) (room : Room)
    (hroom : mapGet rooms roomId = some room)
    (hexp : ¬ room.expiresAt < now)
    (hpw : room.password ≠ password) :
    onJoinRoom rooms sess sockId roomId password userData now =
      (rooms, sess, [Emit.toSender sockId (Msg.error "Incorrect password")]) ∧
    mapGet (onJoinRoom rooms sess sockId roomId password userData now).1 roomId = some room := by
  have h := onJoinRoom_wrong_password rooms sess sockId roomId password userData now room
    hroom hexp hpw
  exact ⟨h, by rw [h]; exact hroom⟩

/-- Witness for C5 at the sample room with an incorrect password. -/
theorem C5_witness :
    onJoinRoom sampleStore { currentRoom := none, currentUser := none } "c1" "R0" "BAD"
        emptyUserData 0 =
      (sampleStore, { currentRoom := none, currentUser := none },
       [Emit.toSender "c1" (Msg.error "Incorrect password")]) ∧
    mapGet (onJoinRoom sampleStore { currentRoom := none, currentUser := none } "c1" "R0"
        "BAD" emptyUserData 0).1 "R0" = some sampleRoom :=
  C5_wrong_password_is_pure_failure sampleStore
    { currentRoom := none, currentUser := none } "c1" "R0" "BAD" emptyUserData 0 sampleRoom
    (by decide) (by decide) (by decide)

/-- C6: applying canvas:object:added with an object and then
canvas:object:removed with the same id leaves the room with no object carrying
that id, whatever the prior room state. -/
theorem C6_add_then_remove_leaves_no_id (rooms : RoomStore) (sess : Session)
    (sockId roomId : String) (object : CanvasObject) (room' : Room)
    (hbound : sess.currentRoom = some roomId)
    (hg : mapGet (onObjectRemoved (onObjectAdded rooms sess sockId object).1 sess sockId
        object.id).1 roomId = some room') :
    room'.canvasState.objects.all (fun o => o.id != object.id) = true := by
  cases hm : mapGet rooms roomId with
  | none =>
    rw [onObjectAdded_noroom rooms sess sockId object roomId hbound hm] at hg
    simp only at hg
    rw [onObjectRemoved_noroom rooms sess sockId object.id roomId hbound hm] at hg
    simp only at hg
    rw [hm] at hg
    cases hg
  | some room =>
    rw [onObjectAdded_eq rooms sess sockId object roomId room hbound hm] at hg
    simp only at hg
    rw [onObjectRemoved_eq _ sess sockId object.id roomId _ hbound
      (mapGet_set_self rooms roomId _)] at hg
    simp only at hg
    rw [mapGet_set_self] at hg
    injection hg with hg
    rw [← hg]
    simp only [List.all_eq_true, List.mem_filter]
    intro o ho
    simpa [bne_iff_ne] using ho.2

/-- Witness for C6: after adding and removing `zz` in the sample room, the
surviving objects carry no id `zz`. -/
theorem C6_witness :
    sampleRoom.canvasState.objects.all
      (fun o => o.id != (CanvasObject.mk "zz" "").id) = true :=
  C6_add_then_remove_leaves_no_id sampleStore sampleSession "c0" "R0"
    (CanvasObject.mk "zz" "") sampleRoom (by decide) (by decide)

/-- C7: a canvas:object:modified whose id matches no stored object leaves the
object list unchanged in length and content (the store is returned exactly as
it was) while the message is still broadcast to the other members. -/
theorem C7_modify_missing_id_noop_but_broadcast (rooms : RoomStore) (sess : Session)
    (sockId roomId : String) (object : CanvasObject) (room : Room)
    (hbound : sess.currentRoom = some roomId)
    (hroom : mapGet rooms roomId = some room)
    (hmiss : room.canvasState.objects.all (fun o => o.id != object.id) = true) :
    onObjectModified rooms sess sockId object =
      (rooms, [Emit.toRoom roomId sockId (Msg.objectModified object)]) := by
  have hmiss' : ∀ o ∈ room.canvasState.objects, o.id ≠ object.id := by
    intro o ho
    simpa [bne_iff_ne] using List.all_eq_true.mp hmiss o ho
  rw [onObjectModified_eq rooms sess sockId object roomId room hbound hroom,
    replaceById_not_mem room.canvasState.objects object hmiss',
    mapSet_get_self rooms roomId room hroom]

/-- Witness for C7: modifying the missing id `zz` in the sample room. -/
theorem C7_witness :
    onObjectModified sampleStore sampleSession "c0" (CanvasObject.mk "zz" "") =
      (sampleStore, [Emit.toRoom "R0" "c0" (Msg.objectModified (CanvasObject.mk "zz" ""))]) :=
  C7_modify_missing_id_noop_but_broadcast sampleStore sampleSession "c0" "R0"
    (CanvasObject.mk "zz" "") sampleRoom (by decide) (by decide) (by decide)

/-- C8: canvas:clear from a bound connection empties the object list and
changes nothing else — the stored room keeps its theme, canvasColor, password,
createdAt, expiresAt, users, rejoinCounts and creatorId (the record-update
form keeps every field of `room` other than `canvasState.objects`) — and the
clear is broadcast to the other members. -/
theorem C8_clear_resets_objects_only (rooms : RoomStore) (sess : Session)
    (sockId roomId : String) (room : Room)
    (hbound : sess.currentRoom = some roomId)
    (hroom : mapGet rooms roomId = some room) :
    mapGet (onClear rooms sess sockId).1 roomId =
      some { room with canvasState := { room.canvasState with objects := [] } } ∧
    (onClear rooms sess sockId).2 = [Emit.toRoom roomId sockId Msg.canvasClear] := by
  have h := onClear_eq rooms sess sockId roomId room hbound hroom
  constructor
  · rw [h]
    exact mapGet_set_self rooms roomId _
  · rw [h]

/-- Witness for C8 at the sample room. -/
theorem C8_witness :
    mapGet (onClear sampleStore sampleSession "c0").1 "R0" =
      some { sampleRoom with
               canvasState := { sampleRoom.canvasState with objects := [] } } ∧
    (onClear sampleStore sampleSession "c0").2 = [Emit.toRoom "R0" "c0" Msg.canvasClear] :=
  C8_clear_resets_objects_only sampleStore sampleSession "c0" "R0" sampleRoom
    (by decide) (by decide)

/-- C9: every canvas mutation message from an unbound connection is silently
ignored: the store is unchanged and nothing at all is emitted — no broadcast
and no error event back to the sender. -/
theorem C9_unbound_mutations_ignored (rooms : RoomStore) (sess : Session) (sockId : String)
    (object : CanvasObject) (objectId theme : String) (color : Option String) (x y : Int)
    (hub : sess.currentRoom = none) :
    onObjectAdded rooms sess sockId object = (rooms, []) ∧
    onObjectModified rooms sess sockId object = (rooms, []) ∧
    onObjectRemoved rooms sess sockId objectId = (rooms, []) ∧
    onClear rooms sess sockId = (rooms, []) ∧
    onThemeChange rooms sess sockId theme color = (rooms, []) ∧
    onCursorPosition rooms sess sockId x y = (rooms, []) := by
  unfold onObjectAdded onObjectModified onObjectRemoved onClear onThemeChange onCursorPosition
  rw [hub]
  exact ⟨rfl, rfl, rfl, rfl, rfl, rfl⟩

/-- Witness for C9 on an unbound session over the sample store. -/
theorem C9_witness :
    onObjectAdded sampleStore { currentRoom := none, currentUser := none } "c1"
        (CanvasObject.mk "a1" "") = (sampleStore, []) ∧
    onObjectModified sampleStore { currentRoom := none, currentUser := none } "c1"
        (CanvasObject.mk "a1" "") = (sampleStore, []) ∧
    onObjectRemoved sampleStore { currentRoom := none, currentUser := none } "c1" "a1" =
      (sampleStore, []) ∧
    onClear sampleStore { currentRoom := none, currentUser := none } "c1" =
      (sampleStore, []) ∧
    onThemeChange sampleStore { currentRoom := none, currentUser := none } "c1" "light"
        (some "#ffffff") = (sampleStore, []) ∧
    onCursorPosition sampleStore { currentRoom := none, currentUser := none } "c1" 3 4 =
      (sampleStore, []) :=
  C9_unbound_mutations_ignored sampleStore { currentRoom := none, currentUser := none }
    "c1" (CanvasObject.mk "a1" "") "a1" "light" (some "#ffffff") 3 4 rfl

/-- C10: when the last remaining member disconnects at transport level, the
user is removed, user-left is broadcast, and the room stays in the store with
an empty users map — whereas leave-room in the same situation deletes the room
from the store at once. -/
theorem C10_disconnect_preserves_empty_room (rooms : RoomStore) (sess : Session)
    (sockId roomId : String) (room : Room)
    (hbound : sess.currentRoom = some roomId)
    (hroom : mapGet rooms roomId = some room)
    (hlast : (mapDelete room.users sockId).length = 0) :
    mapGet (onDisconnect rooms sess sockId).1 roomId = some { room with users := [] } ∧
    (onDisconnect rooms sess sockId).2 = [Emit.toRoom roomId sockId (Msg.userLeft sockId)] ∧
    mapGet (onLeaveRoom rooms sess sockId).1 roomId = none := by
  have hnil : mapDelete room.users sockId = [] := List.length_eq_zero.mp hlast
  have hd := onDisconnect_eq rooms sess sockId roomId room hbound hroom
  have hl := onLeaveRoom_empties rooms sess sockId roomId room hbound hroom hlast
  refine ⟨?_, ?_, ?_⟩
  · rw [hd, hnil]
    exact mapGet_set_self rooms roomId _
  · rw [hd]
  · rw [hl]
    exact mapGet_delete_self rooms roomId

/-- Witness for C10 at the sample room whose only member is `c0`. -/
theorem C10_witness :
    mapGet (onDisconnect sampleStore sampleSession "c0").1 "R0" =
      some { sampleRoom with users := [] } ∧
    (onDisconnect sampleStore sampleSession "c0").2 =
      [Emit.toRoom "R0" "c0" (Msg.userLeft "c0")] ∧
    mapGet (onLeaveRoom sampleStore sampleSession "c0").1 "R0" = none :=
  C10_disconnect_preserves_empty_room sampleStore sampleSession "c0" "R0" sampleRoom
    (by decide) (by decide) (by decide)

/-- C2 counterexample: when Math.random returns 0.5, whose base-36 string is
"0.i" (a single fractional digit, the 18th base-36 digit), the roomId
create-room computes is "I" — length 1, not 6. -/
theorem C2_counterexample_short_roomId :
    generateRoomId [(18 : Fin 36)] = "I" ∧
    ¬ (generateRoomId [(18 : Fin 36)]).length = 6 := by
  constructor <;> decide

/-- C2 amended: the returned password has length exactly 6 with every
character drawn from the [A-Z0-9] alphabet, and the new room canvasState is
initialized with objects = [], theme = "dark" and canvasColor = "#1a1a1a", as
claimed; the returned roomId, however, has length min 6 d, where d is the
number of fractional base-36 digits of the random draw — exactly 6 only when
the draw supplies at least 6 digits. -/
theorem C2_amended_create_room_generation (ds rs : List (Fin 36)) (h6 : rs.length = 6)
    (rooms : RoomStore) (sockId : String) (userData : UserData) (now : Nat) :
    (generateRoomPassword rs).length = 6 ∧
    (generateRoomPassword rs).toList.all (fun c => passwordAlphabet.contains c) = true ∧
    (generateRoomId ds).length = min 6 ds.length ∧
    mapGet (onCreateRoom rooms sockId userData (generateRoomId ds)
        (generateRoomPassword rs) now).1 (generateRoomId ds) =
      some { users := [(sockId, mkUser sockId userData)],
             canvasState := { objects := [], theme := "dark", canvasColor := "#1a1a1a" },
             password := generateRoomPassword rs,
             createdAt := now,
             expiresAt := now + 24 * 60 * 60 * 1000,
             rejoinCounts := [],
             creatorId := sockId } := by
  refine ⟨?_, ?_, ?_, ?_⟩
  · show (rs.map _).length = 6
    rw [List.length_map, h6]
  · show (rs.map (fun r =>
        passwordAlphabet.get (Fin.cast (rfl : (36 : Nat) = passwordAlphabet.length) r))).all
        (fun c => passwordAlphabet.contains c) = true
    rw [List.all_eq_true]
    intro c hc
    obtain ⟨r, _, rfl⟩ := List.mem_map.mp hc
    simp [List.get_mem]
  · show ((((jsRandomToString36 ds).toList.drop 2).take 6).map Char.toUpper).length =
      min 6 ds.length
    show (((('0' :: '.' :: ds.map base36Digit).drop 2).take 6).map Char.toUpper).length =
      min 6 ds.length
    simp [List.length_take]
  · exact mapGet_set_self rooms (generateRoomId ds) _

/-- Witness for C2 amended: a draw with a single base-36 digit and six
password draws. -/
theorem C2_amended_witness :
    (generateRoomPassword [0, 7, 25, 26, 35, 12]).length = 6 ∧
    (generateRoomPassword [0, 7, 25, 26, 35, 12]).toList.all
      (fun c => passwordAlphabet.contains c) = true ∧
    (generateRoomId [(18 : Fin 36)]).length = min 6 [(18 : Fin 36)].length ∧
    mapGet (onCreateRoom [] "c1" emptyUserData (generateRoomId [(18 : Fin 36)])
        (generateRoomPassword [0, 7, 25, 26, 35, 12]) 0).1
        (generateRoomId [(18 : Fin 36)]) =
      some { users := [("c1", mkUser "c1" emptyUserData)],
             canvasState := { objects := [], theme := "dark", canvasColor := "#1a1a1a" },
             password := generateRoomPassword [0, 7, 25, 26, 35, 12],
             createdAt := 0,
             expiresAt := 0 + 24 * 60 * 60 * 1000,
             rejoinCounts := [],
             creatorId := "c1" } :=
  C2_amended_create_room_generation [(18 : Fin 36)] [0, 7, 25, 26, 35, 12] (by decide)
    [] "c1" emptyUserData 0

/-- C3 counterexample: a connection that is already bound may issue
create-room again; neither create-room nor join-room removes the connection
from the users map of its previous room, so after creating R1 and then R2 the
identifier c1 sits in the users maps of two distinct rooms at once. -/
theorem C3_counterexample_member_of_two_rooms :
    connInRoom (step (step initState (Op.create "c1" emptyUserData "R1" "P1" 0))
        (Op.create "c1" emptyUserData "R2" "P2" 0)) "c1" "R1" = true ∧
    connInRoom (step (step initState (Op.create "c1" emptyUserData "R1" "P1" 0))
        (Op.create "c1" emptyUserData "R2" "P2" 0)) "c1" "R2" = true ∧
    "R1" ≠ "R2" := by
  refine ⟨by decide, by decide, by decide⟩

/-! Preservation of the binding invariant under each guarded operation. -/

theorem bindingInv_init : BindingInv initState := by
  intro conn roomId room hg _
  simp [initState, mapGet] at hg

theorem bindingInv_create (s : SState) (inv : BindingInv s) (conn : String)
    (userData : UserData) (rid pw : String) (now : Nat)
    (hub : (s.sessions conn).currentRoom = none) :
    BindingInv (step s (Op.create conn userData rid pw now)) := by
  intro c roomId room hg hmem
  simp only [step, onCreateRoom] at hg ⊢
  rw [mapGet_set] at hg
  by_cases hid : roomId = rid
  · rw [if_pos hid] at hg
    injection hg with hg
    subst hg
    simp only [mapHas, mapGet] at hmem
    by_cases hc : conn = c
    · subst hc
      simp [updSess, hid]
    · rw [if_neg hc] at hmem
      simp at hmem
  · rw [if_neg hid] at hg
    have hb := inv c roomId room hg hmem
    by_cases hc : c = conn
    · subst hc
      rw [hub] at hb
      cases hb
    · simpa [updSess, hc] using hb

theorem bindingInv_join (s : SState) (inv : BindingInv s) (conn : String)
    (rid pw : String) (userData : UserData) (now : Nat)
    (hub : (s.sessions conn).currentRoom = none) :
    BindingInv (step s (Op.join conn rid pw userData now)) := by
  intro c roomId room hg hmem
  simp only [step] at hg ⊢
  cases hm : mapGet s.rooms rid with
  | none =>
    rw [onJoinRoom_not_found s.rooms (s.sessions conn) conn rid pw userData now hm] at hg ⊢
    simp only at hg ⊢
    have hb := inv c roomId room hg hmem
    by_cases hc : c = conn
    · subst hc
      simpa [updSess] using hb
    · simpa [updSess, hc] using hb
  | some room0 =>
    by_cases hx : room0.expiresAt < now
    · rw [onJoinRoom_expired s.rooms (s.sessions conn) conn rid pw userData now room0
        hm hx] at hg ⊢
      simp only at hg ⊢
      rw [mapGet_delete] at hg
      by_cases hid : roomId = rid
      · rw [if_pos hid] at hg
        cases hg
      · rw [if_neg hid] at hg
        have hb := inv c roomId room hg hmem
        by_cases hc : c = conn
        · subst hc
          simpa [updSess] using hb
        · simpa [updSess, hc] using hb
    · by_cases hp : room0.password = pw
      · by_cases hcnt : (mapGet room0.rejoinCounts (userData.userId.getD conn)).getD 0 < 3
        · obtain ⟨rc, he⟩ := onJoinRoom_success s.rooms (s.sessions conn) conn rid pw
            userData now room0 hm hx hp hcnt
          rw [he] at hg ⊢
          simp only at hg ⊢
          rw [mapGet_set] at hg
          by_cases hid : roomId = rid
          · rw [if_pos hid] at hg
            injection hg with hg
            subst hg
            simp only [mapHas] at hmem
            rw [mapGet_set] at hmem
            by_cases hc : c = conn
            · subst hc
              simp [updSess, hid]
            · rw [if_neg hc] at hmem
              have hb := inv c rid room0 hm hmem
              rw [hid]
              simpa [updSess, hc] using hb
          · rw [if_neg hid] at hg
            have hb := inv c roomId room hg hmem
            by_cases hc : c = conn
            · subst hc
              rw [hub] at hb
              cases hb
            · simpa [updSess, hc] using hb
        · rw [onJoinRoom_limited s.rooms (s.sessions conn) conn rid pw userData now room0
            hm hx hp (Nat.le_of_not_lt hcnt)] at hg ⊢
          simp only at hg ⊢
          have hb := inv c roomId room hg hmem
          by_cases hc : c = conn
          · subst hc
            simpa [updSess] using hb
          · simpa [updSess, hc] using hb
      · rw [onJoinRoom_wrong_password s.rooms (s.sessions conn) conn rid pw userData now
          room0 hm hx hp] at hg ⊢
        simp only at hg ⊢
        have hb := inv c roomId room hg hmem
        by_cases hc : c = conn
        · subst hc
          simpa [updSess] using hb
        · simpa [updSess, hc] using hb

theorem bindingInv_leave (s : SState) (inv : BindingInv s) (conn : String) :
    BindingInv (step s (Op.leave conn)) := by
  intro c roomId room hg hmem
  simp only [step] at hg ⊢
  cases hcur : (s.sessions conn).currentRoom with
  | none =>
    have he : onLeaveRoom s.rooms (s.sessions conn) conn = (s.rooms, s.sessions conn, []) := by
      unfold onLeaveRoom
      rw [hcur]
    rw [he] at hg ⊢
    simp only at hg ⊢
    have hb := inv c roomId room hg hmem
    by_cases hc : c = conn
    · subst hc
      simpa [updSess] using hb
    · simpa [updSess, hc] using hb
  | some rid =>
    cases hm : mapGet s.rooms rid with
    | none =>
      have he : onLeaveRoom s.rooms (s.sessions conn) conn =
          (s.rooms, { currentRoom := none, currentUser := none }, []) := by
        unfold onLeaveRoom
        rw [hcur]
        simp [hm]
      rw [he] at hg ⊢
      simp only at hg ⊢
      have hb := inv c roomId room hg hmem
      by_cases hc : c = conn
      · subst hc
        rw [hcur] at hb
        injection hb with hb
        subst hb
        rw [hm] at hg
        cases hg
      · simpa [updSess, hc] using hb
    | some room0 =>
      by_cases hlen : (mapDelete room0.users conn).length = 0
      · rw [onLeaveRoom_empties s.rooms (s.sessions conn) conn rid room0 hcur hm hlen]
          at hg ⊢
        simp only at hg ⊢
        rw [mapGet_delete] at hg
        by_cases hid : roomId = rid
        · rw [if_pos hid] at hg
          cases hg
        · rw [if_neg hid] at hg
          have hb := inv c roomId room hg hmem
          by_cases hc : c = conn
          · subst hc
            rw [hcur] at hb
            injection hb with hb
            exact absurd hb.symm hid
          · simpa [updSess, hc] using hb
      · have he : onLeaveRoom s.rooms (s.sessions conn) conn =
            (mapSet s.rooms rid { room0 with users := mapDelete room0.users conn },
             { currentRoom := none, currentUser := none },
             [Emit.toRoom rid conn (Msg.userLeft conn)]) := by
          unfold onLeaveRoom
          rw [hcur]
          simp [hm, hlen]
        rw [he] at hg ⊢
        simp only at hg ⊢
        rw [mapGet_set] at hg
        by_cases hid : roomId = rid
        · rw [if_pos hid] at hg
          injection hg with hg
          subst hg
          simp only [mapHas] at hmem
          by_cases hc : c = conn
          · subst hc
            rw [mapGet_delete_self] at hmem
            simp at hmem
          · rw [mapGet_delete_ne _ _ _ hc] at hmem
            have hb := inv c rid room0 hm hmem
            rw [hid]
            simpa [updSess, hc] using hb
        · rw [if_neg hid] at hg
          have hb := inv c roomId room hg hmem
          by_cases hc : c = conn
          · subst hc
            rw [hcur] at hb
            injection hb with hb
            exact absurd hb.symm hid
          · simpa [updSess, hc] using hb

theorem bindingInv_disconnect (s : SState) (inv : BindingInv s) (conn : String) :
    BindingInv (step s (Op.disconnect conn)) := by
  intro c roomId room hg hmem
  simp only [step] at hg ⊢
  cases hcur : (s.sessions conn).currentRoom with
  | none =>
    have he : onDisconnect s.rooms (s.sessions conn) conn = (s.rooms, []) := by
      unfold onDisconnect
      rw [hcur]
    rw [he] at hg
    simp only at hg
    have hb := inv c roomId room hg hmem
    by_cases hc : c = conn
    · subst hc
      rw [hcur] at hb
      cases hb
    · simpa [updSess, hc] using hb
  | some rid =>
    cases hm : mapGet s.rooms rid with
    | none =>
      have he : onDisconnect s.rooms (s.sessions conn) conn = (s.rooms, []) := by
        unfold onDisconnect
        rw [hcur]
        simp [hm]
      rw [he] at hg
      simp only at hg
      have hb := inv c roomId room hg hmem
      by_cases hc : c = conn
      · subst hc
        rw [hcur] at hb
        injection hb with hb
        subst hb
        rw [hm] at hg
        cases hg
      · simpa [updSess, hc] using hb
    | some room0 =>
      rw [onDisconnect_eq s.rooms (s.sessions conn) conn rid room0 hcur hm] at hg
      simp only at hg
      rw [mapGet_set] at hg
      by_cases hid : roomId = rid
      · rw [if_pos hid] at hg
        injection hg with hg
        subst hg
        simp only [mapHas] at hmem
        by_cases hc : c = conn
        · subst hc
          rw [mapGet_delete_self] at hmem
          simp at hmem
        · rw [mapGet_delete_ne _ _ _ hc] at hmem
          have hb := inv c rid room0 hm hmem
          rw [hid]
          simpa [updSess, hc] using hb
      · rw [if_neg hid] at hg
        have hb := inv c roomId room hg hmem
        by_cases hc : c = conn
        · subst hc
          rw [hcur] at hb
          injection hb with hb
          exact absurd hb.symm hid
        · simpa [updSess, hc] using hb

theorem guardedReachable_bindingInv {s : SState} (h : GuardedReachable s) :
    BindingInv s := by
  induction h with
  | init => exact bindingInv_init
  | create conn userData roomId password now hr hub ih =>
    exact bindingInv_create _ ih conn userData roomId password now hub
  | join conn roomId password userData now hr hub ih =>
    exact bindingInv_join _ ih conn roomId password userData now hub
  | leave conn hr ih =>
    exact bindingInv_leave _ ih conn
  | disconnect conn hr ih =>
    exact bindingInv_disconnect _ ih conn

/-- C3 amended: under the membership discipline the spec itself states
(create-room and join-room are issued by connections that are currently
Unbound), every connection identifier appears in the users map of at most one
room in every reachable state.  Without that discipline the claim is false:
the handlers never remove a still-bound connection from the users map of its
previous room. -/
theorem C3_amended_unique_membership (s : SState) (h : GuardedReachable s)
    (conn roomId1 roomId2 : String)
    (h1 : connInRoom s conn roomId1 = true) (h2 : connInRoom s conn roomId2 = true) :
    roomId1 = roomId2 := by
  have inv := guardedReachable_bindingInv h
  unfold connInRoom at h1 h2
  cases hm1 : mapGet s.rooms roomId1 with
  | none =>
    rw [hm1] at h1
    simp at h1
  | some r1 =>
    rw [hm1] at h1
    cases hm2 : mapGet s.rooms roomId2 with
    | none =>
      rw [hm2] at h2
      simp at h2
    | some r2 =>
      rw [hm2] at h2
      have b1 := inv conn roomId1 r1 hm1 h1
      have b2 := inv conn roomId2 r2 hm2 h2
      rw [b1] at b2
      injection b2 with b2

/-- Witness for C3 amended: in the guarded-reachable state after one create,
membership of c1 in R1 twice over forces the two room ids equal. -/
theorem C3_amended_witness : "R1" = "R1" :=
  C3_amended_unique_membership (step initState (Op.create "c1" emptyUserData "R1" "P1" 0))
    (GuardedReachable.create "c1" emptyUserData "R1" "P1" 0 GuardedReachable.init rfl)
    "c1" "R1" "R1" (by decide) (by decide)
